import Mathlib

/-!
Shallow embedding of `main.py` from the BASSAM2025 repository: a single-endpoint
FastAPI backend (`POST /api/ask`).  The request handler strips the query,
extracts URLs with the regex `https?://\S+`, fetches at most the first three
URLs (errors swallowed into placeholder strings), assembles a role-tagged
message list, and either calls a remote chat-completions endpoint (when an API
key is configured) or substitutes a deterministic local template answer.

Network I/O, the third-party readability/markdown pipeline, and JSON decoding
of the completions response are modelled as an oracle environment (`AskEnv`):
each fetch outcome, the extraction outcome, and the completion outcome are
inputs over which the theorems quantify universally.  Alongside its result the
embedded handler returns a `Trace` recording which components were invoked,
so that claims about "no network call" and "fetcher never invoked" are
statable.  Errors that the Python code does not catch are modelled with
`Except.error` propagating out of the handler.
-/

/-- Python whitespace class restricted to the Latin-1 range, as used by
`str.strip()` and by the regex class `\S`: space, `\t`, `\n`, `\r`, `\x0b`,
`\x0c`, the `\x1c`-`\x1f` separators, and `\x85`.  Whitespace code points
outside Latin-1 (such as U+00A0 or the U+2000 block) are not modelled; every
claim and every concrete input in this development stays inside this range. -/
def isSpace (c : Char) : Bool :=
  c = ' ' || c = '\t' || c = '\n' || c = '\r' || c = '\x0b' || c = '\x0c' ||
  c = '\x1c' || c = '\x1d' || c = '\x1e' || c = '\x1f' || c = '\x85'

/-- Removes leading and trailing whitespace from a character list: the list
core of Python's `str.strip()`. -/
def stripEnds (l : List Char) : List Char :=
  ((l.dropWhile isSpace).reverse.dropWhile isSpace).reverse

/-- Python's `str.strip()` with no arguments. -/
def pyStrip (s : String) : String :=
  String.mk (stripEnds s.data)

/-- Python's slice `s[:n]` (first `n` code points). -/
def pySlice (s : String) (n : Nat) : String :=
  String.mk (s.data.take n)

/-- Length of the alternation `https?://` when it matches at the head of `l`
(8 for `https://`, 7 for `http://`), and 0 when neither matches.  The two
literal prefixes are mutually exclusive, so the check order is immaterial. -/
def urlPrefixLen (l : List Char) : Nat :=
  if List.isPrefixOf "https://".data l then 8
  else if List.isPrefixOf "http://".data l then 7
  else 0

/-- Left-to-right, non-overlapping scan of `re.findall` for the pattern
`URL_RE = re.compile(r"https?://\S+")` (main.py line 47).  A match at a
position is the maximal run of non-whitespace characters starting there,
provided it begins with `http://` or `https://` and has at least one
character after the scheme separator (`\S+` is one-or-more).  On a failed
position the scan advances one character; after a match it resumes at the
match end.  Fuel equals the character count, which bounds the step count. -/
def findUrlsFuel : Nat → List Char → List String
  | 0, _ => []
  | _ + 1, [] => []
  | fuel + 1, c :: rest =>
    let p := urlPrefixLen (c :: rest)
    let run := (c :: rest).takeWhile (fun ch => !isSpace ch)
    if 0 < p ∧ p < run.length then
      String.mk run :: findUrlsFuel fuel (rest.drop (run.length - 1))
    else
      findUrlsFuel fuel rest

/-- Embeds `URL_RE.findall(query)` (main.py line 106). -/
def url_re_findall (s : String) : List String :=
  findUrlsFuel s.data.length s.data

/-- Raw triple-quoted system prompt literal of main.py lines 34-45, before the
trailing `.strip()` call. -/
def SYSTEM_PROMPT_RAW : String :=
  "\n    أنت \"Bassam Ultra-Answer\" — مساعد عربي/إنجليزي خارق:\n    - تفهم السؤال مهما كان مختصرًا.\n    - تجيب بإيجاز أولاً، ثم تفاصيل عملية (خطوات/أمثلة/قوائم) عند الحاجة.\n    - تلخص النصوص بشكل دقيق، وتستخرج النقاط، والتعليمات.\n    - عند وجود روابط: تقرؤها أولًا وتستخلص أهم ما فيها قبل الإجابة.\n    - إن طلب المستخدم كودًا: أعطِ كودًا نظيفًا جاهزًا للتنفيذ مع شرح قصير.\n    - كن صريحًا عند عدم اليقين، واقترح طرق التحقق.\n    - الأسلوب: بسيط، عملي، بدون زخرفة.\n    "

/-- The fixed persona system message `SYSTEM_PROMPT` (main.py lines 34-45). -/
def SYSTEM_PROMPT : String := pyStrip SYSTEM_PROMPT_RAW

/-- A role-tagged chat message, as the dictionaries built in main.py. -/
structure Message where
  role : String
  content : String

/-- The `meta` object of the JSON response (main.py lines 138-142). -/
structure MetaInfo where
  urls : List String
  mode : String
  provider : String

/-- The JSON body returned by the handler on the normal path. -/
structure AskResponse where
  ok : Bool
  answer : String
  meta : Option MetaInfo

/-- The parsed request body of `POST /api/ask`: `body.get("query", "")` and
`body.get("mode", "auto")`; `none` models an absent key. -/
structure AskRequest where
  query : Option String
  mode : Option String

/-- Outcome of the `session.get(url, ...)` call inside `fetch_url`, as decided
by the network.  `statusErrorText` models `str(e)` of the `HTTPStatusError`
that `r.raise_for_status()` raises on a non-2xx status; its exact formatting
is httpx library code, so it is carried as data. -/
inductive GetResult where
  | transportError (msg : String)
  | response (status : Nat) (statusErrorText : String) (html : String)

/-- Outcome of the `client.post(url, ...)` call inside `call_openai`.
`firstChoiceContent` models `r.json()["choices"][0]["message"]["content"]`:
`Except.error` is a JSON/shape failure raised by that extraction. -/
inductive CompletionOutcome where
  | transportError (msg : String)
  | response (status : Nat) (statusErrorText : String)
      (firstChoiceContent : Except String String)

/-- Oracle environment for one request: the configured credential (read from
`OPENAI_API_KEY`, empty string when unset), the outcome of the i-th article
fetch, the readability/BeautifulSoup/markdownify extraction pipeline (third
party code, modelled as a function of the fetched HTML returning the pair
(title, markdown body) or a raised error), and the completion-call outcome. -/
structure AskEnv where
  apiKey : String
  fetchOutcomes : Nat → GetResult
  extract : String → Except String (String × String)
  completion : CompletionOutcome

/-- Trace of observable effects of one request: whether `URL_RE.findall` ran,
which URLs were handed to `fetch_url` (in order), the assembled message list,
whether `call_openai` was invoked at all, and whether an outbound completion
HTTP POST occurred. -/
structure Trace where
  extractorInvoked : Bool
  fetched : List String
  messages : List Message
  completionClientInvoked : Bool
  completionHttpCalled : Bool

/-- `r.status_code` success test used by `raise_for_status`: 2xx passes,
anything else raises. -/
def is_success (st : Nat) : Bool :=
  decide (200 ≤ st) && decide (st < 300)

/-- The fixed prefix of the placeholder string built by `fetch_url`'s
`except` clause: `f"(تعذر جلب الرابط: {e})"` (main.py line 69). -/
def FETCH_ERR_PREFIX : String := "(تعذر جلب الرابط: "

/-- Embeds `fetch_url` (main.py lines 50-69).  The Python function performs
the GET, raises for non-2xx, runs the readability/soup/markdownify pipeline,
and catches every exception into a placeholder string; here the GET outcome
and the extraction pipeline are supplied by the oracle.  On success the
result is `f"# {title}\n\n" + content_md.strip()`. -/
def fetch_url (extract : String → Except String (String × String)) :
    GetResult → String
  | GetResult.transportError e => FETCH_ERR_PREFIX ++ e ++ ")"
  | GetResult.response st errText html =>
    if is_success st then
      match extract html with
      | Except.ok (title, contentMd) => "# " ++ title ++ "\n\n" ++ pyStrip contentMd
      | Except.error e => FETCH_ERR_PREFIX ++ e ++ ")"
    else FETCH_ERR_PREFIX ++ errText ++ ")"

/-- Description of the failure that `fetch_url`'s `except Exception as e`
clause catches for a given oracle outcome, `none` when the fetch succeeds. -/
def fetchFailureDesc (extract : String → Except String (String × String)) :
    GetResult → Option String
  | GetResult.transportError e => some e
  | GetResult.response st errText html =>
    if is_success st then
      match extract html with
      | Except.ok _ => none
      | Except.error e => some e
    else some errText

/-- Whitespace run at both ends of the fallback template of `call_openai`:
a newline followed by the 8-space indentation of the f-string body. -/
def WS9 : String := "\n        "

/-- Fallback template text between the closing of the understanding echo and
nothing: first constant piece, up to the 500-character query echo
(main.py lines 76-78). -/
def FB1 : String := "(تشغيل مبسط بدون API)\n\n        فهمي للسؤال:\n- "

/-- Fallback template constant between the 500-character echo and the
200-character echo (main.py line 78). -/
def FB2 : String := "\n\nخطة إجابة عامة:\n1) تحديد المطلوب بدقة.\n2) عرض النقاط الأساسية بإيجاز.\n3) إعطاء خطوات عملية قابلة للتنفيذ.\n4) اقتراح مصادر للتحقق.\n\nالإجابة المختصرة:\n- "

/-- Fallback template constant after the 200-character echo (main.py line 78). -/
def FB3 : String := " — يتطلب تفصيلاً حسب السياق."

/-- The blank-line core of the fallback answer between the template's
all-whitespace ends, as a function of the first user message content `u`.
This is the value the dedented template strips to whenever the echoed slices
contain no space/tab-only line (proved in `pyStrip_dedent_fallback`). -/
def fallback_core (u : String) : String :=
  FB1 ++ pySlice u 500 ++ FB2 ++ pySlice u 200 ++ FB3

/-- The f-string template of the no-key branch of `call_openai` before
`textwrap.dedent` and the trailing `.strip()` (main.py lines 76-78). -/
def fallback_raw (u : String) : String :=
  WS9 ++ fallback_core u ++ WS9

/-- The whitespace characters of CPython `textwrap.dedent`'s blank-line
pattern `^[ \t]+$` (`_whitespace_only_re`): space and tab only. -/
def isDedentWs (c : Char) : Bool :=
  c = ' ' || c = '\t'

/-- One line under `textwrap.dedent`'s substitution
`_whitespace_only_re.sub('', text)`: a non-empty line made solely of spaces
and tabs is normalized to an empty line; every other line is kept. -/
def dedentLine (l : List Char) : List Char :=
  if !l.isEmpty && l.all isDedentWs then [] else l

/-- Splits a character list at every newline; always returns at least one
(possibly empty) line, mirroring `text.split('\n')`. -/
def splitNl : List Char → List (List Char)
  | [] => [[]]
  | c :: rest =>
    if c = '\n' then [] :: splitNl rest
    else
      match splitNl rest with
      | [] => [[c]]
      | l :: ls => (c :: l) :: ls

/-- Rejoins lines with newlines: the inverse of `splitNl`. -/
def joinNl : List (List Char) → List Char
  | [] => []
  | [l] => l
  | l :: ls => l ++ '\n' :: joinNl ls

/-- Action of `textwrap.dedent` on this program's fallback template, on
character lists: the whitespace-only-line substitution applied per line.
CPython's `dedent` performs this substitution and then removes the common
leading-whitespace margin of the content lines; for every instantiation of
this template the margin is empty — lines such as `- {user[:500]}`,
`خطة إجابة عامة:` and `1) …` start at column 0 with a non-whitespace
character — so the margin-removal step is the identity and only the
substitution acts.  (Python 3.13 reimplemented `dedent` to blank lines that
are whitespace-only under the full `str.isspace()` class; the two versions
differ only on lines made of exotic whitespace, which no claim touches —
this model follows the classic `[ \t]` pattern.) -/
def dedentData (l : List Char) : List Char :=
  joinNl ((splitNl l).map dedentLine)

/-- `textwrap.dedent` as applied to the fallback template (main.py line 76). -/
def textwrap_dedent (s : String) : String :=
  String.mk (dedentData s.data)

/-- No line of `s` is a non-empty space/tab-only line, i.e. `textwrap.dedent`'s
blank-line substitution leaves every line of `s` unchanged. -/
def dedent_clean (s : String) : Bool :=
  (splitNl s.data).all (fun l => !(!l.isEmpty && l.all isDedentWs))

/-- The fallback template up to (excluding) the newline that precedes the
500-character echo's `- ` marker: the line-grouped head of
`WS9 ++ FB1`. -/
def DEDENT_H : String := "\n        (تشغيل مبسط بدون API)\n\n        فهمي للسؤال:"

/-- The `- ` marker that opens both echo lines of the fallback template. -/
def DEDENT_DS : String := "- "

/-- The complete lines of `FB2` strictly between the newline closing the
500-character echo and the newline that precedes the second `- ` marker. -/
def DEDENT_M : String := "\nخطة إجابة عامة:\n1) تحديد المطلوب بدقة.\n2) عرض النقاط الأساسية بإيجاز.\n3) إعطاء خطوات عملية قابلة للتنفيذ.\n4) اقتراح مصادر للتحقق.\n\nالإجابة المختصرة:"

/-- The final all-whitespace line of the fallback template (8 spaces). -/
def DEDENT_W8 : String := "        "

/-- Embeds `next((m["content"] for m in messages if m["role"] == "user"), "")`
(main.py line 75). -/
def firstUserContent (messages : List Message) : String :=
  ((messages.find? (fun m => m.role == "user")).map (fun m => m.content)).getD ""

/-- The no-key branch of `call_openai` (main.py lines 72-79):
`textwrap.dedent(f"""…""").strip()`. -/
def call_openai_fallback (messages : List Message) : String :=
  pyStrip (textwrap_dedent (fallback_raw (firstUserContent messages)))

/-- Embeds `call_openai` (main.py lines 71-93).  Returns the answer or the
propagated exception, paired with a flag recording whether an outbound
completion HTTP POST occurred.  With no key configured the local template is
returned and no POST happens; otherwise the POST outcome is taken from the
oracle, `raise_for_status` propagates non-2xx as an error, and on success the
first choice content is extracted and stripped. -/
def call_openai_remote : CompletionOutcome → Except String String × Bool
  | CompletionOutcome.transportError e => (Except.error e, true)
  | CompletionOutcome.response st errText content =>
    if is_success st then
      match content with
      | Except.ok c => (Except.ok (pyStrip c), true)
      | Except.error e => (Except.error e, true)
    else (Except.error errText, true)

/-- Branch selection of `call_openai` on the configured credential
(`if not OPENAI_API_KEY`, main.py line 72): empty key means fallback. -/
def call_openai (apiKey : String) (outcome : CompletionOutcome)
    (messages : List Message) : Except String String × Bool :=
  if apiKey = "" then
    (Except.ok (call_openai_fallback messages), false)
  else
    call_openai_remote outcome

/-- True exactly when the completion oracle outcome is a transport failure or
a non-2xx response: the failures that `call_openai` does not catch. -/
def completionFails : CompletionOutcome → Bool
  | CompletionOutcome.transportError _ => true
  | CompletionOutcome.response st _ _ => !is_success st

/-- The context-summarisation instruction prefixed to the joined contexts in
the second system message (main.py line 121). -/
def CTX_HEADER : String :=
  "السياق التالي جُمِع من الروابط التي أرسلها المستخدم. لخصه ثم أجب بدقة على سؤال المستخدم.\n\n"

/-- The user-message content per `mode` (main.py lines 126-131): `summarize`
and `code` wrap the query in fixed instructions, every other value passes the
query verbatim. -/
def user_content (mode query : String) : String :=
  if mode = "summarize" then "لخص بدقة وبنقاط واضحة:\n\n" ++ query
  else if mode = "code" then "اكتب كودًا نظيفًا مع شرح مختصر لحل المطلوب:\n\n" ++ query
  else query

/-- Embeds the `asyncio.gather` fan-out over `urls[:3]` (main.py lines
109-111): the i-th task's result is `fetch_url` applied to the i-th oracle
outcome; `gather` returns results positionally in input order. -/
def gather_contexts (env : AskEnv) (toFetch : List String) : List String :=
  (List.range toFetch.length).map (fun i => fetch_url env.extract (env.fetchOutcomes i))

/-- Embeds the message assembly of main.py lines 114-131: the persona system
message, then (when any contexts were gathered) one system message carrying
the contexts joined by blank lines under `CTX_HEADER`, then the mode-dependent
user message. -/
def build_messages (gathered : List String) (mode query : String) : List Message :=
  let base := [Message.mk "system" SYSTEM_PROMPT]
  let base :=
    if gathered.isEmpty then base
    else base ++ [Message.mk "system" (CTX_HEADER ++ String.intercalate "\n\n" gathered)]
  base ++ [Message.mk "user" (user_content mode query)]

/-- The trace of the short-circuit branch for an empty query: nothing ran. -/
def emptyTrace : Trace := Trace.mk false [] [] false false

/-- Non-empty-query path of the handler (main.py lines 106-143): extract the
URLs, fetch the first three when any exist, assemble the prompt, call the
completion client, and wrap the result with metadata.  An error escaping
`call_openai` escapes the handler (`Except.error`). -/
def ask_main (env : AskEnv) (body : AskRequest) : Except String AskResponse × Trace :=
  let query := pyStrip (body.query.getD "")
  let mode := body.mode.getD "auto"
  let urls := url_re_findall query
  let gathered := if urls.isEmpty then [] else gather_contexts env (urls.take 3)
  let messages := build_messages gathered mode query
  let fetchedTrace := if urls.isEmpty then ([] : List String) else urls.take 3
  match call_openai env.apiKey env.completion messages with
  | (Except.ok answer, http) =>
    (Except.ok (AskResponse.mk true answer
        (some (MetaInfo.mk urls mode
          (if env.apiKey = "" then "fallback-local" else "openai-compatible")))),
     Trace.mk true fetchedTrace messages true http)
  | (Except.error e, http) =>
    (Except.error e, Trace.mk true fetchedTrace messages true http)

/-- Embeds the `ask` request handler (main.py lines 96-143).  The query is
read with default `""`, stripped, and an empty result short-circuits to the
fixed prompt-for-input response with no `meta` and an empty trace. -/
def ask (env : AskEnv) (body : AskRequest) : Except String AskResponse × Trace :=
  if pyStrip (body.query.getD "") = "" then
    (Except.ok (AskResponse.mk true "اكتب سؤالك…" none), emptyTrace)
  else ask_main env body

/-- Projects the `meta` object out of a handler result (`none` when the
handler propagated an error or returned no `meta`). -/
def metaOf (r : Except String AskResponse × Trace) : Option MetaInfo :=
  match r.1 with
  | Except.ok resp => resp.meta
  | Except.error _ => none

/-- Projects the answer string out of a handler result (`""` when the handler
propagated an error). -/
def answerOf (r : Except String AskResponse × Trace) : String :=
  match r.1 with
  | Except.ok resp => resp.answer
  | Except.error _ => ""

/-- `hay` contains `pat` as a contiguous substring. -/
def embeds (hay pat : String) : Prop :=
  ∃ a b : String, hay = a ++ pat ++ b

/-- Boolean substring search over character lists: does `pat` occur as a
contiguous sublist? -/
def hasInfixAux (pat : List Char) : List Char → Bool
  | [] => pat.isEmpty
  | c :: rest => pat.isPrefixOf (c :: rest) || hasInfixAux pat rest

/-- Executable companion of `embeds`. -/
def embedsB (hay pat : String) : Bool :=
  hasInfixAux pat.data hay.data

/-- Concrete oracle with no credential configured, in which every fetch fails
with a transport error, extraction fails, and the (never reached) completion
endpoint is down. -/
def envNoKey : AskEnv :=
  AskEnv.mk "" (fun _ => GetResult.transportError "conn refused")
    (fun _ => Except.error "parse error") (CompletionOutcome.transportError "service down")

/-- Concrete oracle with a credential configured and a completion transport
failure. -/
def envWithKey : AskEnv :=
  AskEnv.mk "sk-live" (fun _ => GetResult.transportError "conn refused")
    (fun _ => Except.error "parse error") (CompletionOutcome.transportError "service down")

/-- A 477-character whitespace-free query: `b` followed by 476 `a`s.  Longer
than the 476 query characters that fit in the 500-character echo after the
24-character summarize wrapper. -/
def cexQuery : String := String.mk ('b' :: List.replicate 476 'a')

/-- Request carrying `cexQuery` with mode `"summarize"`. -/
def cexBody : AskRequest := AskRequest.mk (some cexQuery) (some "summarize")

/-- Request whose query contains a space-only line, with mode absent:
`textwrap.dedent` blanks that line inside the echoed slices. -/
def cexBody2 : AskRequest := AskRequest.mk (some "a\n \nb") none

/-! ### Helper lemmas about strings and stripping -/

/-- The character list of a concatenation is the concatenation of the lists. -/
theorem string_data_append (a b : String) : (a ++ b).data = a.data ++ b.data :=
  String.data_append a b

/-- Rebuilding a string from its character list is the identity. -/
theorem string_mk_data (s : String) : String.mk s.data = s := by
  cases s
  rfl

/-- Two strings with the same character list are equal. -/
theorem string_eq_of_data {a b : String} (h : a.data = b.data) : a = b := by
  rw [← string_mk_data a, ← string_mk_data b, h]

/-- Dropping a satisfying block never lengthens a list. -/
theorem length_dropWhile_le (p : Char → Bool) (l : List Char) :
    (l.dropWhile p).length ≤ l.length := by
  induction l with
  | nil => simp
  | cons a t ih =>
    by_cases h : p a
    · rw [List.dropWhile_cons, if_pos h]
      exact Nat.le_trans ih (Nat.le_succ _)
    · rw [List.dropWhile_cons, if_neg h]

/-- `dropWhile` skips over a leading block that wholly satisfies the predicate. -/
theorem dropWhile_append_of_all (p : Char → Bool) (l₁ l₂ : List Char)
    (h : ∀ c ∈ l₁, p c = true) : (l₁ ++ l₂).dropWhile p = l₂.dropWhile p := by
  induction l₁ with
  | nil => simp
  | cons a t ih =>
    rw [List.cons_append, List.dropWhile_cons, if_pos (h a (List.mem_cons_self a t))]
    exact ih (fun c hc => h c (List.mem_cons_of_mem a hc))

/-- If `dropWhile` leaves a cons unchanged, its head falsifies the predicate. -/
theorem head_false_of_dropWhile_self (p : Char → Bool) (c : Char) (t : List Char)
    (h : (c :: t).dropWhile p = c :: t) : p c = false := by
  cases hpc : p c with
  | false => rfl
  | true =>
    rw [List.dropWhile_cons, if_pos hpc] at h
    have h1 : (t.dropWhile p).length ≤ t.length := length_dropWhile_le p t
    have h2 := congrArg List.length h
    simp at h2
    omega

/-- A list stable under `dropWhile` stays in front of any appended tail. -/
theorem dropWhile_stable_append (p : Char → Bool) (l z : List Char)
    (h : l.dropWhile p = l) (hne : l ≠ []) : (l ++ z).dropWhile p = l ++ z := by
  cases hl : l with
  | nil => exact absurd hl hne
  | cons c t =>
    have hc : p c = false := head_false_of_dropWhile_self p c t (hl ▸ h)
    rw [List.cons_append, List.dropWhile_cons, if_neg (by simp [hc])]

/-- `dropWhile` is idempotent. -/
theorem dropWhile_dropWhile (p : Char → Bool) (l : List Char) :
    (l.dropWhile p).dropWhile p = l.dropWhile p := by
  induction l with
  | nil => simp
  | cons a t ih =>
    by_cases h : p a
    · rw [List.dropWhile_cons, if_pos h]
      exact ih
    · rw [List.dropWhile_cons, if_neg h, List.dropWhile_cons, if_neg h]

/-- `dropWhile` over an append, split by whether the left block is consumed. -/
theorem dropWhile_append_split (p : Char → Bool) (l₁ l₂ : List Char) :
    (l₁ ++ l₂).dropWhile p =
      if (l₁.dropWhile p).isEmpty then l₂.dropWhile p else l₁.dropWhile p ++ l₂ := by
  induction l₁ with
  | nil => simp
  | cons a t ih =>
    by_cases h : p a
    · rw [List.cons_append, List.dropWhile_cons, if_pos h, ih, List.dropWhile_cons, if_pos h]
    · rw [List.cons_append, List.dropWhile_cons, if_neg h, List.dropWhile_cons, if_neg h]
      simp

/-- The two-sided strip is already left-stripped. -/
theorem left_stable_stripEnds (l : List Char) :
    (stripEnds l).dropWhile isSpace = stripEnds l := by
  unfold stripEnds
  cases hd : l.dropWhile isSpace with
  | nil => simp
  | cons c t =>
    have hself : (c :: t).dropWhile isSpace = c :: t := by
      rw [← hd]
      exact dropWhile_dropWhile isSpace l
    have hc : isSpace c = false := head_false_of_dropWhile_self isSpace c t hself
    rw [List.reverse_cons, dropWhile_append_split]
    by_cases he : (t.reverse.dropWhile isSpace).isEmpty
    · rw [if_pos he]
      rw [List.dropWhile_cons, if_neg (by simp [hc])]
      simp [List.dropWhile_cons, hc]
    · rw [if_neg he]
      rw [List.reverse_append]
      simp only [List.reverse_cons, List.reverse_nil, List.nil_append, List.singleton_append]
      rw [List.dropWhile_cons, if_neg (by simp [hc])]

/-- Stripping both ends is idempotent. -/
theorem stripEnds_idem (l : List Char) : stripEnds (stripEnds l) = stripEnds l := by
  conv_lhs => rw [stripEnds, left_stable_stripEnds l]
  rw [stripEnds, List.reverse_reverse, dropWhile_dropWhile]

/-- Python's `strip` is idempotent. -/
theorem pyStrip_idem (s : String) : pyStrip (pyStrip s) = pyStrip s := by
  unfold pyStrip
  exact congrArg String.mk (stripEnds_idem s.data)

/-- Stripping a term whose ends are all-whitespace blocks around a stable,
non-empty core returns exactly the core. -/
theorem stripEnds_sandwich (pre mid post : List Char)
    (hpre : ∀ c ∈ pre, isSpace c = true)
    (hpost : ∀ c ∈ post, isSpace c = true)
    (hmidl : mid.dropWhile isSpace = mid)
    (hmidr : mid.reverse.dropWhile isSpace = mid.reverse)
    (hne : mid ≠ []) :
    stripEnds (pre ++ (mid ++ post)) = mid := by
  unfold stripEnds
  rw [dropWhile_append_of_all isSpace pre _ hpre]
  rw [dropWhile_stable_append isSpace mid post hmidl hne]
  rw [List.reverse_append]
  rw [dropWhile_append_of_all isSpace post.reverse _
    (fun c hc => hpost c (List.mem_reverse.mp hc))]
  rw [hmidr, List.reverse_reverse]

/-! ### The fallback template strips to its core -/

/-- Character-list decomposition of the fallback core. -/
theorem fallback_core_data (u : String) :
    (fallback_core u).data =
      FB1.data ++ ((pySlice u 500).data ++ (FB2.data ++ ((pySlice u 200).data ++ FB3.data))) := by
  simp [fallback_core, string_data_append, List.append_assoc]

/-- The fallback core starts with a non-whitespace character, so left
stripping leaves it unchanged. -/
theorem fallback_core_stable_left (u : String) :
    (fallback_core u).data.dropWhile isSpace = (fallback_core u).data := by
  rw [fallback_core_data]
  exact dropWhile_stable_append isSpace FB1.data _ (by decide) (by decide)

/-- The fallback core ends with a non-whitespace character, so right
stripping leaves it unchanged. -/
theorem fallback_core_stable_right (u : String) :
    (fallback_core u).data.reverse.dropWhile isSpace = (fallback_core u).data.reverse := by
  rw [fallback_core_data]
  simp only [List.reverse_append, List.append_assoc]
  exact dropWhile_stable_append isSpace FB3.data.reverse _ (by decide) (by decide)

/-- The fallback core is never empty. -/
theorem fallback_core_ne (u : String) : (fallback_core u).data ≠ [] := by
  rw [fallback_core_data]
  intro h
  rw [List.append_eq_nil] at h
  exact absurd h.1 (by decide)

/-! ### Line splitting and `textwrap.dedent` -/

/-- `splitNl` always yields at least one line. -/
theorem splitNl_ne (l : List Char) : splitNl l ≠ [] := by
  induction l with
  | nil => simp [splitNl]
  | cons c rest ih =>
    by_cases hc : c = '\n'
    · simp [splitNl, hc]
    · cases hsr : splitNl rest with
      | nil => exact absurd hsr ih
      | cons h t => simp [splitNl, hc, hsr]

/-- Equation of `splitNl` at a non-newline head. -/
theorem splitNl_cons (c : Char) (rest : List Char) (hc : ¬ c = '\n')
    (h : List Char) (t : List (List Char)) (hht : splitNl rest = h :: t) :
    splitNl (c :: rest) = (c :: h) :: t := by
  simp [splitNl, hc, hht]

/-- A newline is a hard line boundary: splitting an append at a newline is
the append of the two splits. -/
theorem splitNl_break (a b : List Char) :
    splitNl (a ++ '\n' :: b) = splitNl a ++ splitNl b := by
  induction a with
  | nil => simp [splitNl]
  | cons c a' ih =>
    by_cases hc : c = '\n'
    · subst hc
      simp only [List.cons_append]
      simp [splitNl, ih]
    · obtain ⟨h, t, hht⟩ : ∃ h t, splitNl a' = h :: t := by
        cases hs : splitNl a' with
        | nil => exact absurd hs (splitNl_ne a')
        | cons h t => exact ⟨h, t, rfl⟩
      rw [List.cons_append,
        splitNl_cons c (a' ++ '\n' :: b) hc h (t ++ splitNl b) (by rw [ih, hht, List.cons_append]),
        splitNl_cons c a' hc h t hht, List.cons_append]

/-- Joining concatenated non-empty line lists inserts a newline in between. -/
theorem joinNl_append (X Y : List (List Char)) (hX : X ≠ []) (hY : Y ≠ []) :
    joinNl (X ++ Y) = joinNl X ++ '\n' :: joinNl Y := by
  induction X with
  | nil => exact absurd rfl hX
  | cons x X' ih =>
    cases X' with
    | nil =>
      cases Y with
      | nil => exact absurd rfl hY
      | cons y ys => simp [joinNl]
    | cons x2 X'' =>
      rw [List.cons_append]
      rw [show joinNl (x :: (x2 :: X'' ++ Y)) = x ++ '\n' :: joinNl (x2 :: X'' ++ Y) from by
        cases X'' <;> cases Y <;> rfl]
      rw [ih (by simp) ]
      rw [show joinNl (x :: x2 :: X'') = x ++ '\n' :: joinNl (x2 :: X'') from rfl]
      simp [List.append_assoc]

/-- `joinNl` undoes `splitNl`. -/
theorem joinNl_splitNl (x : List Char) : joinNl (splitNl x) = x := by
  induction x with
  | nil => rfl
  | cons c r ih =>
    obtain ⟨h, t, hht⟩ : ∃ h t, splitNl r = h :: t := by
      cases hs : splitNl r with
      | nil => exact absurd hs (splitNl_ne r)
      | cons h t => exact ⟨h, t, rfl⟩
    by_cases hc : c = '\n'
    · subst hc
      rw [show splitNl ('\n' :: r) = [] :: splitNl r from by simp [splitNl], hht]
      rw [show joinNl ([] :: h :: t) = [] ++ '\n' :: joinNl (h :: t) from rfl]
      rw [← hht, ih]
      rfl
    · rw [splitNl_cons c r hc h t hht]
      cases t with
      | nil =>
        rw [show joinNl [c :: h] = c :: h from rfl]
        rw [hht] at ih
        rw [show joinNl [h] = h from rfl] at ih
        rw [ih]
      | cons t0 ts =>
        rw [show joinNl ((c :: h) :: t0 :: ts) = (c :: h) ++ '\n' :: joinNl (t0 :: ts) from rfl]
        rw [hht] at ih
        rw [show joinNl (h :: t0 :: ts) = h ++ '\n' :: joinNl (t0 :: ts) from rfl] at ih
        rw [List.cons_append, ih]

/-- `textwrap.dedent`'s substitution distributes over a newline boundary. -/
theorem dedent_split (a b : List Char) :
    dedentData (a ++ '\n' :: b) = dedentData a ++ '\n' :: dedentData b := by
  unfold dedentData
  rw [splitNl_break, List.map_append]
  rw [joinNl_append _ _ (by intro hc; simp at hc; exact splitNl_ne a hc)
    (by intro hc; simp at hc; exact splitNl_ne b hc)]

/-- A list whose lines are all fixed by the blank-line substitution is fixed
by `dedentData`. -/
theorem dedentData_of_fixed (x : List Char)
    (hx : ∀ l ∈ splitNl x, dedentLine l = l) : dedentData x = x := by
  unfold dedentData
  have hmap : ∀ (L : List (List Char)), (∀ l ∈ L, dedentLine l = l) → L.map dedentLine = L := by
    intro L
    induction L with
    | nil => intro _; rfl
    | cons a t ih =>
      intro h
      rw [List.map_cons, h a (List.mem_cons_self a t),
        ih (fun l hl => h l (List.mem_cons_of_mem a hl))]
  rw [hmap _ hx, joinNl_splitNl]

/-- A line containing a character that is not a space or tab is kept by the
blank-line substitution. -/
theorem dedentLine_of_nonws (l : List Char) (h : ∃ c ∈ l, isDedentWs c = false) :
    dedentLine l = l := by
  unfold dedentLine
  rw [if_neg]
  intro hcond
  obtain ⟨c, hc, hcw⟩ := h
  have hall : l.all isDedentWs = true := by
    cases hall2 : l.all isDedentWs
    · rw [hall2] at hcond
      simp at hcond
    · rfl
  have := List.all_eq_true.mp hall c hc
  rw [hcw] at this
  exact Bool.noConfusion this

/-- A newline-free list is a single line. -/
theorem splitNl_no_nl (y : List Char) (hy : ∀ c ∈ y, ¬ c = '\n') : splitNl y = [y] := by
  induction y with
  | nil => rfl
  | cons c y' ih =>
    exact splitNl_cons c y' (hy c (List.mem_cons_self c y')) y' []
      (ih (fun d hd => hy d (List.mem_cons_of_mem c hd)))

/-- Prepending a newline-free chunk extends the first line. -/
theorem splitNl_prefix_no_nl (d : List Char) (hd : ∀ c ∈ d, ¬ c = '\n')
    (x : List Char) (h : List Char) (t : List (List Char)) (hht : splitNl x = h :: t) :
    splitNl (d ++ x) = (d ++ h) :: t := by
  induction d with
  | nil => simpa using hht
  | cons c d' ih =>
    rw [List.cons_append,
      splitNl_cons c (d' ++ x) (hd c (List.mem_cons_self c d')) (d' ++ h) t
        (ih (fun e he => hd e (List.mem_cons_of_mem c he))),
      List.cons_append]

/-- Appending a newline-free chunk extends the last line. -/
theorem splitNl_append_no_nl (x y : List Char) (hy : ∀ c ∈ y, ¬ c = '\n') :
    splitNl (x ++ y) = (splitNl x).dropLast ++ [(splitNl x).getLastD [] ++ y] := by
  induction x with
  | nil =>
    rw [List.nil_append, splitNl_no_nl y hy]
    rfl
  | cons c x' ih =>
    obtain ⟨h, t, hht⟩ : ∃ h t, splitNl x' = h :: t := by
      cases hs : splitNl x' with
      | nil => exact absurd hs (splitNl_ne x')
      | cons h t => exact ⟨h, t, rfl⟩
    by_cases hc : c = '\n'
    · subst hc
      rw [List.cons_append,
        show splitNl ('\n' :: (x' ++ y)) = [] :: splitNl (x' ++ y) from by simp [splitNl], ih,
        show splitNl ('\n' :: x') = [] :: splitNl x' from by simp [splitNl], hht]
      cases t with
      | nil => rfl
      | cons t0 ts => rfl
    · rw [List.cons_append]
      cases t with
      | nil =>
        have hxy : splitNl (x' ++ y) = [h ++ y] := by
          rw [ih, hht]
          rfl
        rw [splitNl_cons c (x' ++ y) hc (h ++ y) [] hxy]
        rw [splitNl_cons c x' hc h [] hht]
        simp
      | cons t0 ts =>
        have hxy : splitNl (x' ++ y) =
            h :: ((t0 :: ts).dropLast ++ [(t0 :: ts).getLastD h ++ y]) := by
          rw [ih, hht]
          rfl
        rw [splitNl_cons c (x' ++ y) hc h
          ((t0 :: ts).dropLast ++ [(t0 :: ts).getLastD h ++ y]) hxy]
        rw [splitNl_cons c x' hc h (t0 :: ts) hht]
        rfl

/-- Cleanliness of a string makes every one of its lines fixed. -/
theorem dedent_clean_fixed (s : String) (h : dedent_clean s = true) :
    ∀ l ∈ splitNl s.data, dedentLine l = l := by
  intro l hl
  have hb : (!(!l.isEmpty && l.all isDedentWs)) = true := List.all_eq_true.mp h l hl
  have hcond : (!l.isEmpty && l.all isDedentWs) = false := by
    cases hx : (!l.isEmpty && l.all isDedentWs)
    · rfl
    · rw [hx] at hb
      exact absurd hb (by decide)
  simp [dedentLine, hcond]

/-- Fixed lines survive a newline-free prefix with a non-whitespace character. -/
theorem fixed_lines_front (d x : List Char) (hd : ∀ c ∈ d, ¬ c = '\n')
    (hdw : ∃ c ∈ d, isDedentWs c = false)
    (hx : ∀ l ∈ splitNl x, dedentLine l = l) :
    ∀ l ∈ splitNl (d ++ x), dedentLine l = l := by
  obtain ⟨h, t, hht⟩ : ∃ h t, splitNl x = h :: t := by
    cases hs : splitNl x with
    | nil => exact absurd hs (splitNl_ne x)
    | cons h t => exact ⟨h, t, rfl⟩
  rw [splitNl_prefix_no_nl d hd x h t hht]
  intro l hl
  rcases List.mem_cons.mp hl with rfl | hl2
  · obtain ⟨c, hc, hcw⟩ := hdw
    exact dedentLine_of_nonws _ ⟨c, List.mem_append_left h hc, hcw⟩
  · exact hx l (by rw [hht]; exact List.mem_cons_of_mem h hl2)

/-- Fixed lines survive a newline-free suffix with a non-whitespace character. -/
theorem fixed_lines_suffix (x y : List Char) (hy : ∀ c ∈ y, ¬ c = '\n')
    (hyw : ∃ c ∈ y, isDedentWs c = false)
    (hx : ∀ l ∈ splitNl x, dedentLine l = l) :
    ∀ l ∈ splitNl (x ++ y), dedentLine l = l := by
  rw [splitNl_append_no_nl x y hy]
  intro l hl
  rcases List.mem_append.mp hl with h1 | h2
  · exact hx l (List.dropLast_subset _ h1)
  · have hl2 : l = (splitNl x).getLastD [] ++ y := by simpa using h2
    subst hl2
    obtain ⟨c, hc, hcw⟩ := hyw
    exact dedentLine_of_nonws _ ⟨c, List.mem_append_right _ hc, hcw⟩

/-- `dedent(plan).strip()` for the fallback template: whenever neither echoed
slice contains a non-empty space/tab-only line, the blank-line substitution
only blanks the template's own trailing 8-space line, and the final strip
yields exactly the filled core. -/
theorem pyStrip_dedent_fallback (u : String)
    (h5 : dedent_clean (pySlice u 500) = true)
    (h2 : dedent_clean (pySlice u 200) = true) :
    pyStrip (textwrap_dedent (fallback_raw u)) = fallback_core u := by
  have f5 := dedent_clean_fixed _ h5
  have f2 := dedent_clean_fixed _ h2
  have hA : WS9.data ++ FB1.data = DEDENT_H.data ++ '\n' :: DEDENT_DS.data := by decide
  have hB : FB2.data = '\n' :: (DEDENT_M.data ++ '\n' :: DEDENT_DS.data) := by decide
  have hW : WS9.data = '\n' :: DEDENT_W8.data := by decide
  have hraw : (fallback_raw u).data =
      DEDENT_H.data ++ '\n' :: ((DEDENT_DS.data ++ (pySlice u 500).data) ++ '\n' ::
        (DEDENT_M.data ++ '\n' :: ((DEDENT_DS.data ++ ((pySlice u 200).data ++ FB3.data)) ++ '\n' ::
          DEDENT_W8.data))) := by
    calc (fallback_raw u).data
        = (WS9.data ++ FB1.data) ++ ((pySlice u 500).data ++ (FB2.data ++
            ((pySlice u 200).data ++ (FB3.data ++ WS9.data)))) := by
          simp [fallback_raw, fallback_core, string_data_append, List.append_assoc]
      _ = (DEDENT_H.data ++ '\n' :: DEDENT_DS.data) ++ ((pySlice u 500).data ++
            (('\n' :: (DEDENT_M.data ++ '\n' :: DEDENT_DS.data)) ++
            ((pySlice u 200).data ++ (FB3.data ++ ('\n' :: DEDENT_W8.data))))) := by
          rw [hA, hB, hW]
      _ = _ := by simp [List.append_assoc, List.cons_append]
  have hded : dedentData (fallback_raw u).data =
      DEDENT_H.data ++ '\n' :: ((DEDENT_DS.data ++ (pySlice u 500).data) ++ '\n' ::
        (DEDENT_M.data ++ '\n' :: ((DEDENT_DS.data ++ ((pySlice u 200).data ++ FB3.data)) ++ '\n' ::
          ([] : List Char)))) := by
    rw [hraw, dedent_split, dedent_split, dedent_split, dedent_split]
    rw [show dedentData DEDENT_H.data = DEDENT_H.data from by decide]
    rw [show dedentData DEDENT_W8.data = [] from by decide]
    rw [show dedentData DEDENT_M.data = DEDENT_M.data from by decide]
    rw [dedentData_of_fixed _ (fixed_lines_front DEDENT_DS.data _ (by decide) (by decide) f5)]
    rw [dedentData_of_fixed _ (fixed_lines_front DEDENT_DS.data _ (by decide) (by decide)
      (fixed_lines_suffix _ FB3.data (by decide) (by decide) f2))]
  have hfin : dedentData (fallback_raw u).data =
      WS9.data ++ ((fallback_core u).data ++ ['\n']) := by
    rw [hded]
    calc DEDENT_H.data ++ '\n' :: ((DEDENT_DS.data ++ (pySlice u 500).data) ++ '\n' ::
          (DEDENT_M.data ++ '\n' :: ((DEDENT_DS.data ++ ((pySlice u 200).data ++ FB3.data)) ++ '\n' ::
            ([] : List Char))))
        = (DEDENT_H.data ++ '\n' :: DEDENT_DS.data) ++ ((pySlice u 500).data ++
            (('\n' :: (DEDENT_M.data ++ '\n' :: DEDENT_DS.data)) ++
            ((pySlice u 200).data ++ (FB3.data ++ ['\n'])))) := by
          simp [List.append_assoc, List.cons_append]
      _ = (WS9.data ++ FB1.data) ++ ((pySlice u 500).data ++ (FB2.data ++
            ((pySlice u 200).data ++ (FB3.data ++ ['\n'])))) := by
          rw [hA, hB]
      _ = WS9.data ++ ((fallback_core u).data ++ ['\n']) := by
          simp [fallback_core, string_data_append, List.append_assoc]
  show String.mk (stripEnds (String.mk (dedentData (fallback_raw u).data)).data) = fallback_core u
  rw [show (String.mk (dedentData (fallback_raw u).data)).data =
      dedentData (fallback_raw u).data from rfl]
  rw [hfin]
  rw [stripEnds_sandwich WS9.data (fallback_core u).data ['\n'] (by decide) (by decide)
    (fallback_core_stable_left u) (fallback_core_stable_right u) (fallback_core_ne u)]

/-! ### Message assembly -/

/-- The first user message in an assembled list is the mode-dependent user
content, regardless of the gathered contexts. -/
theorem firstUserContent_build (g : List String) (m q : String) :
    firstUserContent (build_messages g m q) = user_content m q := by
  unfold build_messages firstUserContent
  by_cases hg : g.isEmpty <;> simp only [hg, if_true, if_false, Bool.false_eq_true] <;> rfl

/-- The fallback answer for an assembled message list is the template core
filled with the mode-dependent user content, whenever neither echoed slice of
that content contains a non-empty space/tab-only line. -/
theorem call_openai_fallback_build (g : List String) (m q : String)
    (h5 : dedent_clean (pySlice (user_content m q) 500) = true)
    (h2 : dedent_clean (pySlice (user_content m q) 200) = true) :
    call_openai_fallback (build_messages g m q) = fallback_core (user_content m q) := by
  unfold call_openai_fallback
  rw [firstUserContent_build]
  exact pyStrip_dedent_fallback _ h5 h2

/-- The assembled message list always ends with the single user message. -/
theorem build_messages_getLast (g : List String) (m q : String) :
    (build_messages g m q).getLast? = some (Message.mk "user" (user_content m q)) := by
  unfold build_messages
  by_cases hg : g.isEmpty <;> simp only [hg, if_true, if_false, Bool.false_eq_true] <;>
    exact List.getLast?_concat _

/-- On a non-empty stripped query the handler takes the main path. -/
theorem ask_nonempty_eq (env : AskEnv) (body : AskRequest)
    (hq : pyStrip (body.query.getD "") ≠ "") : ask env body = ask_main env body := by
  rw [ask, if_neg hq]

/-- With no credential, `call_openai` returns the local fallback and performs
no HTTP call. -/
theorem call_openai_no_key (outcome : CompletionOutcome) (messages : List Message) :
    call_openai "" outcome messages = (Except.ok (call_openai_fallback messages), false) := by
  rw [call_openai, if_pos rfl]

/-! ### Substring search -/

/-- A list is a Boolean prefix of itself followed by anything. -/
theorem isPrefixOf_append_self (p t : List Char) : p.isPrefixOf (p ++ t) = true := by
  induction p with
  | nil => simp [List.isPrefixOf]
  | cons a s ih => simp [List.isPrefixOf, ih]

/-- Soundness direction of the executable substring search: a decomposition
witness forces `embedsB` to return `true`. -/
theorem embeds_imp_embedsB (hay pat : String) (h : embeds hay pat) :
    embedsB hay pat = true := by
  obtain ⟨a, b, hab⟩ := h
  have hdata : hay.data = a.data ++ (pat.data ++ b.data) := by
    rw [hab]
    simp [string_data_append, List.append_assoc]
  rw [embedsB, hdata]
  clear hdata hab
  induction a.data with
  | nil =>
    simp only [List.nil_append]
    cases hp : pat.data ++ b.data with
    | nil =>
      have : pat.data = [] := (List.append_eq_nil.mp hp).1
      simp [hasInfixAux, this, List.isEmpty_iff]
    | cons c t =>
      rw [hasInfixAux, ← hp, isPrefixOf_append_self]
      simp
  | cons c rest ih =>
    rw [List.cons_append, hasInfixAux, ih]
    simp

/-! ### Master reduction of the handler on its main path -/

/-- With no credential the main path always yields a `meta` object carrying
the full URL list, the mode, and provider `"fallback-local"`, whatever the
fallback answer computes to. -/
theorem ask_main_no_key_meta (env : AskEnv) (body : AskRequest) (hkey : env.apiKey = "") :
    metaOf (ask_main env body) =
      some (MetaInfo.mk (url_re_findall (pyStrip (body.query.getD "")))
        (body.mode.getD "auto") "fallback-local") := by
  simp only [metaOf, ask_main]
  rw [hkey, call_openai_no_key]
  rfl

/-- Full reduction of the main path when no credential is configured and
neither echoed slice of the user message contains a blank-padded line: the
fallback answer is the filled template core, `meta.provider` is
`"fallback-local"`, and the trace records no completion HTTP call. -/
theorem ask_main_no_key (env : AskEnv) (body : AskRequest) (hkey : env.apiKey = "")
    (h5 : dedent_clean (pySlice (user_content (body.mode.getD "auto")
      (pyStrip (body.query.getD ""))) 500) = true)
    (h2 : dedent_clean (pySlice (user_content (body.mode.getD "auto")
      (pyStrip (body.query.getD ""))) 200) = true) :
    ask_main env body =
      (Except.ok (AskResponse.mk true
          (fallback_core (user_content (body.mode.getD "auto") (pyStrip (body.query.getD ""))))
          (some (MetaInfo.mk (url_re_findall (pyStrip (body.query.getD "")))
            (body.mode.getD "auto") "fallback-local"))),
       Trace.mk true
         (if (url_re_findall (pyStrip (body.query.getD ""))).isEmpty then []
          else (url_re_findall (pyStrip (body.query.getD ""))).take 3)
         (build_messages
           (if (url_re_findall (pyStrip (body.query.getD ""))).isEmpty then []
            else gather_contexts env ((url_re_findall (pyStrip (body.query.getD ""))).take 3))
           (body.mode.getD "auto") (pyStrip (body.query.getD "")))
         true false) := by
  simp only [ask_main]
  rw [hkey, call_openai_no_key, call_openai_fallback_build _ _ _ h5 h2]
  rfl

/-! ### Claim theorems -/

/-- Claim C2: for every URL-fetch outcome and extraction pipeline, whenever
the fetch fails (transport failure, non-2xx status, or parse failure — the
cases where `fetchFailureDesc` yields a description `d`), `fetch_url` returns
the human-readable placeholder string with the fixed prefix embedding `d`.
Being a total Lean function into `String`, it returns a string and never
raises to its caller on any outcome. -/
theorem fetch_url_failure_placeholder
    (extract : String → Except String (String × String)) (g : GetResult) (d : String)
    (h : fetchFailureDesc extract g = some d) :
    fetch_url extract g = FETCH_ERR_PREFIX ++ d ++ ")" := by
  cases g with
  | transportError e =>
    simp only [fetchFailureDesc, Option.some.injEq] at h
    rw [← h]
    rfl
  | response st errText html =>
    by_cases hs : is_success st
    · simp only [fetchFailureDesc, fetch_url, if_pos hs] at h ⊢
      cases hx : extract html with
      | ok p =>
        rw [hx] at h
        simp at h
      | error e =>
        rw [hx] at h
        simp at h
        rw [h]
    · simp only [fetchFailureDesc, fetch_url, if_neg hs] at h ⊢
      simp only [Option.some.injEq] at h
      rw [h]

/-- Witness for C2: a concrete transport failure yields the placeholder. -/
theorem fetch_url_failure_placeholder_witness :
    fetchFailureDesc (fun _ => Except.error "parse error")
        (GetResult.transportError "conn refused") = some "conn refused" ∧
    fetch_url (fun _ => Except.error "parse error")
        (GetResult.transportError "conn refused") =
      FETCH_ERR_PREFIX ++ "conn refused" ++ ")" :=
  ⟨rfl, fetch_url_failure_placeholder _ _ _ rfl⟩

/-- Claim C6: a query that strips to the empty string short-circuits the
handler to `ok = true` with the fixed prompt-for-input answer and no `meta`
key, and the empty trace shows that the link extractor, article fetcher,
prompt assembler, and completion client are never invoked and no network
call of any kind occurs. -/
theorem ask_empty_query_short_circuit (env : AskEnv) (body : AskRequest)
    (h : pyStrip (body.query.getD "") = "") :
    ask env body = (Except.ok (AskResponse.mk true "اكتب سؤالك…" none), emptyTrace) := by
  rw [ask, if_pos h]

/-- Witness for C6 at a whitespace-only query. -/
theorem ask_empty_query_short_circuit_witness :
    pyStrip ((AskRequest.mk (some " \t\n ") (some "code")).query.getD "") = "" ∧
    ask envNoKey (AskRequest.mk (some " \t\n ") (some "code")) =
      (Except.ok (AskResponse.mk true "اكتب سؤالك…" none), emptyTrace) :=
  ⟨by decide, ask_empty_query_short_circuit envNoKey _ (by decide)⟩

/-- Claim C10: a request body with no `"query"` field behaves exactly like an
empty query (fixed prompt-for-input response, no `meta`, empty trace), and the
handler is invariant under pre-stripping the query — the query is stripped
before the emptiness check, URL extraction, and prompt construction, so
surrounding whitespace never reaches the extracted URLs or the user message. -/
theorem ask_absent_query_and_strip (env : AskEnv) (m : Option String) (q : String) :
    ask env (AskRequest.mk none m) =
      (Except.ok (AskResponse.mk true "اكتب سؤالك…" none), emptyTrace) ∧
    ask env (AskRequest.mk (some q) m) = ask env (AskRequest.mk (some (pyStrip q)) m) := by
  constructor
  · rw [ask, if_pos (show pyStrip ((AskRequest.mk none m).query.getD "") = "" from rfl)]
  · simp only [ask, ask_main, Option.getD_some, pyStrip_idem]

/-- Full reduction of the main-path trace, for any credential and any
completion outcome: both match branches carry the same trace. -/
theorem ask_main_trace (env : AskEnv) (body : AskRequest) :
    (ask_main env body).2 =
      Trace.mk true
        (if (url_re_findall (pyStrip (body.query.getD ""))).isEmpty then []
         else (url_re_findall (pyStrip (body.query.getD ""))).take 3)
        (build_messages
          (if (url_re_findall (pyStrip (body.query.getD ""))).isEmpty then []
           else gather_contexts env ((url_re_findall (pyStrip (body.query.getD ""))).take 3))
          (body.mode.getD "auto") (pyStrip (body.query.getD "")))
        true
        (call_openai env.apiKey env.completion
          (build_messages
            (if (url_re_findall (pyStrip (body.query.getD ""))).isEmpty then []
             else gather_contexts env ((url_re_findall (pyStrip (body.query.getD ""))).take 3))
            (body.mode.getD "auto") (pyStrip (body.query.getD "")))).2 := by
  simp only [ask_main]
  cases hres : call_openai env.apiKey env.completion
      (build_messages
        (if (url_re_findall (pyStrip (body.query.getD ""))).isEmpty then []
         else gather_contexts env ((url_re_findall (pyStrip (body.query.getD ""))).take 3))
        (body.mode.getD "auto") (pyStrip (body.query.getD ""))) with
  | mk res http => cases res <;> rfl

/-- On the main path, `meta` is either absent (propagated error) or carries
the full URL list, the mode, and the provider tag. -/
theorem ask_main_meta (env : AskEnv) (body : AskRequest) :
    metaOf (ask_main env body) = none ∨
    metaOf (ask_main env body) =
      some (MetaInfo.mk (url_re_findall (pyStrip (body.query.getD "")))
        (body.mode.getD "auto")
        (if env.apiKey = "" then "fallback-local" else "openai-compatible")) := by
  simp only [metaOf, ask_main]
  cases hres : call_openai env.apiKey env.completion
      (build_messages
        (if (url_re_findall (pyStrip (body.query.getD ""))).isEmpty then []
         else gather_contexts env ((url_re_findall (pyStrip (body.query.getD ""))).take 3))
        (body.mode.getD "auto") (pyStrip (body.query.getD ""))) with
  | mk res http =>
    cases res with
    | ok a => right; rfl
    | error e => left; rfl

/-- With a non-empty credential, an uncaught completion failure (transport
error or non-2xx) makes `call_openai` return a propagating error, having
performed the HTTP POST. -/
theorem call_openai_fails (apiKey : String) (outcome : CompletionOutcome)
    (messages : List Message) (hk : apiKey ≠ "") (hf : completionFails outcome = true) :
    ∃ e, call_openai apiKey outcome messages = (Except.error e, true) := by
  rw [call_openai, if_neg hk]
  cases outcome with
  | transportError e => exact ⟨e, rfl⟩
  | response st errText content =>
    have hs : is_success st = false := by
      simpa [completionFails] using hf
    refine ⟨errText, ?_⟩
    simp only [call_openai_remote]
    rw [if_neg (by simp [hs])]

/-- The fan-out result list is non-empty whenever some URL is fetched. -/
theorem gather_contexts_ne (env : AskEnv) (l : List String) (h : l ≠ []) :
    gather_contexts env l ≠ [] := by
  unfold gather_contexts
  intro hc
  have hl := congrArg List.length hc
  simp only [List.length_map, List.length_range, List.length_nil] at hl
  exact h (List.eq_nil_of_length_eq_zero hl)

/-- A string with a non-empty prefix attached is a different string. -/
theorem append_left_ne (w q : String) (hw : w.data ≠ []) : w ++ q ≠ q := by
  intro h
  have hd := congrArg String.data h
  rw [string_data_append] at hd
  have hlen := congrArg List.length hd
  rw [List.length_append] at hlen
  have h0 : w.data.length = 0 := by omega
  exact hw (List.eq_nil_of_length_eq_zero h0)

/-- Different prefixes attached to the same string give different strings. -/
theorem append_right_cancel_ne (w1 w2 q : String) (hne : w1.data ≠ w2.data) :
    w1 ++ q ≠ w2 ++ q := by
  intro h
  have hd := congrArg String.data h
  rw [string_data_append, string_data_append] at hd
  exact hne (List.append_cancel_right hd)

/-- Claim C5: the single user message appended to the prompt carries the
query wrapped in the summarization instruction for mode `"summarize"`, the
query wrapped in the code-generation instruction for mode `"code"`, and the
raw (stripped) query verbatim for every other mode value, absent included;
and for the same query those three contents are pairwise textually distinct. -/
theorem ask_user_message_modes (env : AskEnv) (body : AskRequest)
    (hq : pyStrip (body.query.getD "") ≠ "") :
    (ask env body).2.messages.getLast? =
      some (Message.mk "user"
        (user_content (body.mode.getD "auto") (pyStrip (body.query.getD "")))) ∧
    user_content "summarize" (pyStrip (body.query.getD "")) =
      "لخص بدقة وبنقاط واضحة:\n\n" ++ pyStrip (body.query.getD "") ∧
    user_content "code" (pyStrip (body.query.getD "")) =
      "اكتب كودًا نظيفًا مع شرح مختصر لحل المطلوب:\n\n" ++ pyStrip (body.query.getD "") ∧
    (body.mode.getD "auto" ≠ "summarize" → body.mode.getD "auto" ≠ "code" →
      user_content (body.mode.getD "auto") (pyStrip (body.query.getD "")) =
        pyStrip (body.query.getD "")) ∧
    user_content "summarize" (pyStrip (body.query.getD "")) ≠
      user_content "code" (pyStrip (body.query.getD "")) ∧
    user_content "summarize" (pyStrip (body.query.getD "")) ≠ pyStrip (body.query.getD "") ∧
    user_content "code" (pyStrip (body.query.getD "")) ≠ pyStrip (body.query.getD "") := by
  refine ⟨?_, rfl, rfl, ?_, ?_, ?_, ?_⟩
  · rw [ask_nonempty_eq env body hq, ask_main_trace]
    exact build_messages_getLast _ _ _
  · intro h1 h2
    rw [user_content, if_neg h1, if_neg h2]
  · show "لخص بدقة وبنقاط واضحة:\n\n" ++ _ ≠ "اكتب كودًا نظيفًا مع شرح مختصر لحل المطلوب:\n\n" ++ _
    exact append_right_cancel_ne _ _ _ (by decide)
  · exact append_left_ne _ _ (by decide)
  · exact append_left_ne _ _ (by decide)

/-- Witness for C5 at a concrete request with an unrecognized mode. -/
theorem ask_user_message_modes_witness :
    pyStrip ((AskRequest.mk (some "hello") (some "garbage")).query.getD "") ≠ "" ∧
    ((ask envNoKey (AskRequest.mk (some "hello") (some "garbage"))).2.messages.getLast? =
      some (Message.mk "user"
        (user_content ((AskRequest.mk (some "hello") (some "garbage")).mode.getD "auto")
          (pyStrip ((AskRequest.mk (some "hello") (some "garbage")).query.getD "")))) ∧
    user_content "summarize" (pyStrip ((AskRequest.mk (some "hello") (some "garbage")).query.getD "")) =
      "لخص بدقة وبنقاط واضحة:\n\n" ++ pyStrip ((AskRequest.mk (some "hello") (some "garbage")).query.getD "") ∧
    user_content "code" (pyStrip ((AskRequest.mk (some "hello") (some "garbage")).query.getD "")) =
      "اكتب كودًا نظيفًا مع شرح مختصر لحل المطلوب:\n\n" ++ pyStrip ((AskRequest.mk (some "hello") (some "garbage")).query.getD "") ∧
    ((AskRequest.mk (some "hello") (some "garbage")).mode.getD "auto" ≠ "summarize" →
      (AskRequest.mk (some "hello") (some "garbage")).mode.getD "auto" ≠ "code" →
      user_content ((AskRequest.mk (some "hello") (some "garbage")).mode.getD "auto")
        (pyStrip ((AskRequest.mk (some "hello") (some "garbage")).query.getD "")) =
        pyStrip ((AskRequest.mk (some "hello") (some "garbage")).query.getD "")) ∧
    user_content "summarize" (pyStrip ((AskRequest.mk (some "hello") (some "garbage")).query.getD "")) ≠
      user_content "code" (pyStrip ((AskRequest.mk (some "hello") (some "garbage")).query.getD "")) ∧
    user_content "summarize" (pyStrip ((AskRequest.mk (some "hello") (some "garbage")).query.getD "")) ≠
      pyStrip ((AskRequest.mk (some "hello") (some "garbage")).query.getD "") ∧
    user_content "code" (pyStrip ((AskRequest.mk (some "hello") (some "garbage")).query.getD "")) ≠
      pyStrip ((AskRequest.mk (some "hello") (some "garbage")).query.getD "")) :=
  ⟨by decide, ask_user_message_modes envNoKey (AskRequest.mk (some "hello") (some "garbage")) (by decide)⟩

/-- A take of three from a non-empty list is non-empty. -/
theorem take3_ne (l : List String) (h : l ≠ []) : l.take 3 ≠ [] := by
  intro hc
  rcases List.take_eq_nil_iff.mp hc with h3 | hnil
  · omega
  · exact h hnil

/-- Claim C7: on every non-empty query the assembled message list begins with
the fixed persona system message and ends with exactly one user message; when
no contexts were fetched it is exactly those two messages, and when contexts
were fetched exactly one additional system message sits in between, carrying
precisely the fetched contexts (the fan-out results for the first three URLs,
in order) joined with the blank-line separator under the summarize-then-answer
instruction. -/
theorem ask_messages_shape (env : AskEnv) (body : AskRequest)
    (hq : pyStrip (body.query.getD "") ≠ "") :
    ((ask env body).2.fetched = [] ∧
      (ask env body).2.messages =
        [Message.mk "system" SYSTEM_PROMPT,
         Message.mk "user"
           (user_content (body.mode.getD "auto") (pyStrip (body.query.getD "")))]) ∨
    ((ask env body).2.fetched ≠ [] ∧
      gather_contexts env ((url_re_findall (pyStrip (body.query.getD ""))).take 3) ≠ [] ∧
      (ask env body).2.messages =
        [Message.mk "system" SYSTEM_PROMPT,
         Message.mk "system" (CTX_HEADER ++ String.intercalate "\n\n"
           (gather_contexts env ((url_re_findall (pyStrip (body.query.getD ""))).take 3))),
         Message.mk "user"
           (user_content (body.mode.getD "auto") (pyStrip (body.query.getD "")))]) := by
  rw [ask_nonempty_eq env body hq, ask_main_trace]
  by_cases hu : (url_re_findall (pyStrip (body.query.getD ""))).isEmpty
  · left
    rw [if_pos hu, if_pos hu]
    exact ⟨rfl, rfl⟩
  · right
    have hne : url_re_findall (pyStrip (body.query.getD "")) ≠ [] := by
      simpa [List.isEmpty_iff] using hu
    have htake := take3_ne _ hne
    have hg := gather_contexts_ne env _ htake
    rw [if_neg hu, if_neg hu]
    refine ⟨htake, hg, ?_⟩
    rw [build_messages]
    rw [if_neg (by simpa [List.isEmpty_iff] using hg)]
    rfl

/-- Witness for C7 at a query with one URL (fetch failing). -/
theorem ask_messages_shape_witness :
    pyStrip ((AskRequest.mk (some "see http://x.example") none).query.getD "") ≠ "" ∧
    (((ask envNoKey (AskRequest.mk (some "see http://x.example") none)).2.fetched = [] ∧
      (ask envNoKey (AskRequest.mk (some "see http://x.example") none)).2.messages =
        [Message.mk "system" SYSTEM_PROMPT,
         Message.mk "user"
           (user_content ((AskRequest.mk (some "see http://x.example") none).mode.getD "auto")
             (pyStrip ((AskRequest.mk (some "see http://x.example") none).query.getD "")))]) ∨
    ((ask envNoKey (AskRequest.mk (some "see http://x.example") none)).2.fetched ≠ [] ∧
      gather_contexts envNoKey ((url_re_findall (pyStrip ((AskRequest.mk (some "see http://x.example") none).query.getD ""))).take 3) ≠ [] ∧
      (ask envNoKey (AskRequest.mk (some "see http://x.example") none)).2.messages =
        [Message.mk "system" SYSTEM_PROMPT,
         Message.mk "system" (CTX_HEADER ++ String.intercalate "\n\n"
           (gather_contexts envNoKey ((url_re_findall (pyStrip ((AskRequest.mk (some "see http://x.example") none).query.getD ""))).take 3))),
         Message.mk "user"
           (user_content ((AskRequest.mk (some "see http://x.example") none).mode.getD "auto")
             (pyStrip ((AskRequest.mk (some "see http://x.example") none).query.getD "")))])) :=
  ⟨by decide, ask_messages_shape envNoKey (AskRequest.mk (some "see http://x.example") none) (by decide)⟩

/-- Claim C9: whenever the query contains at least one URL-like substring the
gathered-contexts list is non-empty — every fetch returns a string, failed or
not — so the additional context system message is always present and the
prompt has exactly three messages, even when every single fetch failed. -/
theorem ask_context_message_when_urls (env : AskEnv) (body : AskRequest)
    (hq : pyStrip (body.query.getD "") ≠ "")
    (hu : url_re_findall (pyStrip (body.query.getD "")) ≠ []) :
    ∃ ctxs, ctxs ≠ [] ∧
      (ask env body).2.messages =
        [Message.mk "system" SYSTEM_PROMPT,
         Message.mk "system" (CTX_HEADER ++ String.intercalate "\n\n" ctxs),
         Message.mk "user"
           (user_content (body.mode.getD "auto") (pyStrip (body.query.getD "")))] ∧
      (ask env body).2.messages.length = 3 := by
  rw [ask_nonempty_eq env body hq, ask_main_trace]
  have hbe : (url_re_findall (pyStrip (body.query.getD ""))).isEmpty = false := by
    cases hv : (url_re_findall (pyStrip (body.query.getD ""))).isEmpty
    · rfl
    · exact absurd (List.isEmpty_iff.mp hv) hu
  have htake := take3_ne _ hu
  have hg := gather_contexts_ne env _ htake
  rw [hbe]
  refine ⟨gather_contexts env ((url_re_findall (pyStrip (body.query.getD ""))).take 3),
    hg, ?_, ?_⟩
  · simp only [Bool.false_eq_true, if_false]
    rw [build_messages]
    rw [if_neg (by simpa [List.isEmpty_iff] using hg)]
    rfl
  · simp only [Bool.false_eq_true, if_false]
    rw [build_messages]
    rw [if_neg (by simpa [List.isEmpty_iff] using hg)]
    rfl

/-- Witness for C9: one URL, every fetch failing with a transport error. -/
theorem ask_context_message_when_urls_witness :
    pyStrip ((AskRequest.mk (some "read https://a.example/x") none).query.getD "") ≠ "" ∧
    url_re_findall (pyStrip ((AskRequest.mk (some "read https://a.example/x") none).query.getD "")) ≠ [] ∧
    (∃ ctxs, ctxs ≠ [] ∧
      (ask envNoKey (AskRequest.mk (some "read https://a.example/x") none)).2.messages =
        [Message.mk "system" SYSTEM_PROMPT,
         Message.mk "system" (CTX_HEADER ++ String.intercalate "\n\n" ctxs),
         Message.mk "user"
           (user_content ((AskRequest.mk (some "read https://a.example/x") none).mode.getD "auto")
             (pyStrip ((AskRequest.mk (some "read https://a.example/x") none).query.getD "")))] ∧
      (ask envNoKey (AskRequest.mk (some "read https://a.example/x") none)).2.messages.length = 3) :=
  ⟨by decide, by decide,
    ask_context_message_when_urls envNoKey (AskRequest.mk (some "read https://a.example/x") none)
      (by decide) (by decide)⟩

/-- Claim C8: on a non-empty query containing zero URL-like substrings, no URL
is ever handed to the article fetcher, and the response's `meta.urls` is the
empty sequence: whenever a `meta` object exists its `urls` field is `[]`, and
in particular on the always-successful no-credential path the `meta` object is
present with `urls = []`. -/
theorem ask_no_urls (env : AskEnv) (body : AskRequest)
    (hq : pyStrip (body.query.getD "") ≠ "")
    (h0 : url_re_findall (pyStrip (body.query.getD "")) = []) :
    (ask env body).2.fetched = [] ∧
    (Option.map MetaInfo.urls (metaOf (ask env body))).getD [] = [] ∧
    (env.apiKey = "" → metaOf (ask env body) =
      some (MetaInfo.mk [] (body.mode.getD "auto") "fallback-local")) := by
  rw [ask_nonempty_eq env body hq]
  refine ⟨?_, ?_, ?_⟩
  · rw [ask_main_trace]
    rw [if_pos (by simp [h0])]
  · rcases ask_main_meta env body with h | h
    · rw [h]
      rfl
    · rw [h, h0]
      rfl
  · intro hkey
    rw [ask_main_no_key_meta env body hkey, h0]

/-- Witness for C8 at a URL-free query. -/
theorem ask_no_urls_witness :
    pyStrip ((AskRequest.mk (some "ما هي عاصمة فرنسا؟") none).query.getD "") ≠ "" ∧
    url_re_findall (pyStrip ((AskRequest.mk (some "ما هي عاصمة فرنسا؟") none).query.getD "")) = [] ∧
    ((ask envNoKey (AskRequest.mk (some "ما هي عاصمة فرنسا؟") none)).2.fetched = [] ∧
    (Option.map MetaInfo.urls (metaOf (ask envNoKey (AskRequest.mk (some "ما هي عاصمة فرنسا؟") none)))).getD [] = [] ∧
    (envNoKey.apiKey = "" → metaOf (ask envNoKey (AskRequest.mk (some "ما هي عاصمة فرنسا؟") none)) =
      some (MetaInfo.mk [] ((AskRequest.mk (some "ما هي عاصمة فرنسا؟") none).mode.getD "auto") "fallback-local"))) :=
  ⟨by decide, by decide,
    ask_no_urls envNoKey (AskRequest.mk (some "ما هي عاصمة فرنسا؟") none) (by decide) (by decide)⟩

/-- Claim C3: when a non-empty query contains more than three URL-like
substrings, exactly the first three (in order of appearance) are handed to the
article fetcher, while `meta.urls` carries the full ordered list: whenever a
`meta` object exists its `urls` field is the full list, and on the
no-credential path the `meta` object is present with the full list. -/
theorem ask_first3_fetched_meta_full (env : AskEnv) (body : AskRequest)
    (hq : pyStrip (body.query.getD "") ≠ "")
    (hn : 3 < (url_re_findall (pyStrip (body.query.getD ""))).length) :
    (ask env body).2.fetched = (url_re_findall (pyStrip (body.query.getD ""))).take 3 ∧
    (Option.map MetaInfo.urls (metaOf (ask env body))).getD
        (url_re_findall (pyStrip (body.query.getD ""))) =
      url_re_findall (pyStrip (body.query.getD "")) ∧
    (env.apiKey = "" → metaOf (ask env body) =
      some (MetaInfo.mk (url_re_findall (pyStrip (body.query.getD "")))
        (body.mode.getD "auto") "fallback-local")) := by
  rw [ask_nonempty_eq env body hq]
  have hne : url_re_findall (pyStrip (body.query.getD "")) ≠ [] := by
    intro hc
    rw [hc] at hn
    simp at hn
  refine ⟨?_, ?_, ?_⟩
  · rw [ask_main_trace]
    rw [if_neg (by simpa [List.isEmpty_iff] using hne)]
  · rcases ask_main_meta env body with h | h
    · rw [h]
      rfl
    · rw [h]
      rfl
  · intro hkey
    rw [ask_main_no_key_meta env body hkey]

/-- Witness for C3 at a query with four URLs. -/
theorem ask_first3_fetched_meta_full_witness :
    pyStrip ((AskRequest.mk (some "http://a http://b http://c http://d") none).query.getD "") ≠ "" ∧
    3 < (url_re_findall (pyStrip ((AskRequest.mk (some "http://a http://b http://c http://d") none).query.getD ""))).length ∧
    ((ask envNoKey (AskRequest.mk (some "http://a http://b http://c http://d") none)).2.fetched =
      (url_re_findall (pyStrip ((AskRequest.mk (some "http://a http://b http://c http://d") none).query.getD ""))).take 3 ∧
    (Option.map MetaInfo.urls (metaOf (ask envNoKey (AskRequest.mk (some "http://a http://b http://c http://d") none)))).getD
        (url_re_findall (pyStrip ((AskRequest.mk (some "http://a http://b http://c http://d") none).query.getD ""))) =
      url_re_findall (pyStrip ((AskRequest.mk (some "http://a http://b http://c http://d") none).query.getD "")) ∧
    (envNoKey.apiKey = "" →
      metaOf (ask envNoKey (AskRequest.mk (some "http://a http://b http://c http://d") none)) =
        some (MetaInfo.mk (url_re_findall (pyStrip ((AskRequest.mk (some "http://a http://b http://c http://d") none).query.getD "")))
          ((AskRequest.mk (some "http://a http://b http://c http://d") none).mode.getD "auto") "fallback-local"))) :=
  ⟨by decide, by decide,
    ask_first3_fetched_meta_full envNoKey
      (AskRequest.mk (some "http://a http://b http://c http://d") none) (by decide) (by decide)⟩

/-- Claim C4: with a credential configured, a completion failure (transport
error or non-2xx from the completions endpoint) is not caught anywhere in the
handler: the error propagates out (`Except.error`), so the caller gets the
framework-default error response instead of the normal `ok`/`answer`/`meta`
body — and the trace confirms the outbound HTTP POST did occur. -/
theorem ask_completion_error_propagates (env : AskEnv) (body : AskRequest)
    (hk : env.apiKey ≠ "") (hq : pyStrip (body.query.getD "") ≠ "")
    (hf : completionFails env.completion = true) :
    (∃ e, (ask env body).1 = Except.error e) ∧
    (ask env body).2.completionHttpCalled = true := by
  rw [ask_nonempty_eq env body hq]
  obtain ⟨e, he⟩ := call_openai_fails env.apiKey env.completion
    (build_messages
      (if (url_re_findall (pyStrip (body.query.getD ""))).isEmpty then []
       else gather_contexts env ((url_re_findall (pyStrip (body.query.getD ""))).take 3))
      (body.mode.getD "auto") (pyStrip (body.query.getD ""))) hk hf
  constructor
  · refine ⟨e, ?_⟩
    simp only [ask_main]
    rw [he]
  · rw [ask_main_trace, he]

/-- Witness for C4: credential set, completions endpoint down. -/
theorem ask_completion_error_propagates_witness :
    envWithKey.apiKey ≠ "" ∧
    pyStrip ((AskRequest.mk (some "hello") none).query.getD "") ≠ "" ∧
    completionFails envWithKey.completion = true ∧
    ((∃ e, (ask envWithKey (AskRequest.mk (some "hello") none)).1 = Except.error e) ∧
    (ask envWithKey (AskRequest.mk (some "hello") none)).2.completionHttpCalled = true) :=
  ⟨by decide, by decide, by decide,
    ask_completion_error_propagates envWithKey (AskRequest.mk (some "hello") none)
      (by decide) (by decide) (by decide)⟩

/-- The filled fallback core embeds the first 500 characters of the user
message. -/
theorem fallback_core_embeds_500 (u : String) :
    embeds (fallback_core u) (pySlice u 500) :=
  ⟨FB1, FB2 ++ pySlice u 200 ++ FB3, by simp [fallback_core, String.append_assoc]⟩

/-- The filled fallback core embeds the first 200 characters of the user
message. -/
theorem fallback_core_embeds_200 (u : String) :
    embeds (fallback_core u) (pySlice u 200) :=
  ⟨FB1 ++ pySlice u 500 ++ FB2, FB3, by simp [fallback_core, String.append_assoc]⟩

/-- Claim C1 (amended): with no credential configured and a non-empty query,
the handler performs no outbound completion HTTP call and `meta.provider` is
`"fallback-local"` (with the full URL list and mode); whenever neither echoed
slice of the assembled user message contains a non-empty space/tab-only line
(`textwrap.dedent` blanks such lines), the deterministic answer embeds the
first 500 and first 200 characters of that user message; and when moreover
the mode is neither `"summarize"` nor `"code"` the user message is the raw
stripped query, so the answer embeds the first 500 and 200 characters of the
query itself under the same proviso.  (The unamended claim fails in the
wrapper modes, whose 24-character instruction prefix pushes the tail of a
long query out of the 500-character echo, and on queries with a blank-padded
line, which `dedent` rewrites inside the echo — see the counterexample.) -/
theorem ask_no_key_fallback (env : AskEnv) (body : AskRequest)
    (hkey : env.apiKey = "") (hq : pyStrip (body.query.getD "") ≠ "") :
    (ask env body).2.completionHttpCalled = false ∧
    metaOf (ask env body) =
      some (MetaInfo.mk (url_re_findall (pyStrip (body.query.getD "")))
        (body.mode.getD "auto") "fallback-local") ∧
    (dedent_clean (pySlice (user_content (body.mode.getD "auto")
        (pyStrip (body.query.getD ""))) 500) = true →
     dedent_clean (pySlice (user_content (body.mode.getD "auto")
        (pyStrip (body.query.getD ""))) 200) = true →
      embeds (answerOf (ask env body))
        (pySlice (user_content (body.mode.getD "auto") (pyStrip (body.query.getD ""))) 500) ∧
      embeds (answerOf (ask env body))
        (pySlice (user_content (body.mode.getD "auto") (pyStrip (body.query.getD ""))) 200)) ∧
    (body.mode.getD "auto" ≠ "summarize" → body.mode.getD "auto" ≠ "code" →
      dedent_clean (pySlice (pyStrip (body.query.getD "")) 500) = true →
      dedent_clean (pySlice (pyStrip (body.query.getD "")) 200) = true →
      embeds (answerOf (ask env body)) (pySlice (pyStrip (body.query.getD "")) 500) ∧
      embeds (answerOf (ask env body)) (pySlice (pyStrip (body.query.getD "")) 200)) := by
  rw [ask_nonempty_eq env body hq]
  refine ⟨?_, ask_main_no_key_meta env body hkey, ?_, ?_⟩
  · rw [ask_main_trace, hkey, call_openai_no_key]
  · intro h5 h2
    rw [ask_main_no_key env body hkey h5 h2]
    exact ⟨fallback_core_embeds_500 _, fallback_core_embeds_200 _⟩
  · intro h1 h2m h5q h2q
    have hu : user_content (body.mode.getD "auto") (pyStrip (body.query.getD "")) =
        pyStrip (body.query.getD "") := by
      rw [user_content, if_neg h1, if_neg h2m]
    have h5 : dedent_clean (pySlice (user_content (body.mode.getD "auto")
        (pyStrip (body.query.getD ""))) 500) = true := by
      rw [hu]
      exact h5q
    have h2 : dedent_clean (pySlice (user_content (body.mode.getD "auto")
        (pyStrip (body.query.getD ""))) 200) = true := by
      rw [hu]
      exact h2q
    rw [ask_main_no_key env body hkey h5 h2]
    constructor
    · show embeds (fallback_core (user_content (body.mode.getD "auto")
          (pyStrip (body.query.getD "")))) (pySlice (pyStrip (body.query.getD "")) 500)
      rw [hu]
      exact fallback_core_embeds_500 _
    · show embeds (fallback_core (user_content (body.mode.getD "auto")
          (pyStrip (body.query.getD "")))) (pySlice (pyStrip (body.query.getD "")) 200)
      rw [hu]
      exact fallback_core_embeds_200 _

set_option maxRecDepth 8192 in
/-- Witness for C1 at a default-mode request without a credential. -/
theorem ask_no_key_fallback_witness :
    envNoKey.apiKey = "" ∧
    pyStrip ((AskRequest.mk (some "hello world") none).query.getD "") ≠ "" ∧
    ((ask envNoKey (AskRequest.mk (some "hello world") none)).2.completionHttpCalled = false ∧
    metaOf (ask envNoKey (AskRequest.mk (some "hello world") none)) =
      some (MetaInfo.mk
        (url_re_findall (pyStrip ((AskRequest.mk (some "hello world") none).query.getD "")))
        ((AskRequest.mk (some "hello world") none).mode.getD "auto") "fallback-local") ∧
    (dedent_clean (pySlice (user_content ((AskRequest.mk (some "hello world") none).mode.getD "auto")
        (pyStrip ((AskRequest.mk (some "hello world") none).query.getD ""))) 500) = true →
     dedent_clean (pySlice (user_content ((AskRequest.mk (some "hello world") none).mode.getD "auto")
        (pyStrip ((AskRequest.mk (some "hello world") none).query.getD ""))) 200) = true →
      embeds (answerOf (ask envNoKey (AskRequest.mk (some "hello world") none)))
        (pySlice (user_content ((AskRequest.mk (some "hello world") none).mode.getD "auto")
          (pyStrip ((AskRequest.mk (some "hello world") none).query.getD ""))) 500) ∧
      embeds (answerOf (ask envNoKey (AskRequest.mk (some "hello world") none)))
        (pySlice (user_content ((AskRequest.mk (some "hello world") none).mode.getD "auto")
          (pyStrip ((AskRequest.mk (some "hello world") none).query.getD ""))) 200)) ∧
    ((AskRequest.mk (some "hello world") none).mode.getD "auto" ≠ "summarize" →
      (AskRequest.mk (some "hello world") none).mode.getD "auto" ≠ "code" →
      dedent_clean (pySlice (pyStrip ((AskRequest.mk (some "hello world") none).query.getD "")) 500) = true →
      dedent_clean (pySlice (pyStrip ((AskRequest.mk (some "hello world") none).query.getD "")) 200) = true →
      embeds (answerOf (ask envNoKey (AskRequest.mk (some "hello world") none)))
        (pySlice (pyStrip ((AskRequest.mk (some "hello world") none).query.getD "")) 500) ∧
      embeds (answerOf (ask envNoKey (AskRequest.mk (some "hello world") none)))
        (pySlice (pyStrip ((AskRequest.mk (some "hello world") none).query.getD "")) 200))) :=
  ⟨rfl, by decide,
    ask_no_key_fallback envNoKey (AskRequest.mk (some "hello world") none) rfl (by decide)⟩

set_option maxRecDepth 200000 in
/-- Counterexample to claim C1 as stated, at both of its failure modes with no
credential configured.  First: a 477-character query in mode `"summarize"`
satisfies the claim's preconditions, yet the answer does not embed the first
500 characters of the query — the echo covers the wrapped user message, whose
24-character instruction prefix pushes the query's tail out of the
500-character slice.  Second: the default-mode query `"a\n \nb"`, whose middle
line is a single space, is echoed through `textwrap.dedent`, which blanks that
line, so the answer embeds neither the first 500 nor the first 200 characters
of the query. -/
theorem ask_no_key_embed_cex :
    (envNoKey.apiKey = "" ∧ pyStrip (cexBody.query.getD "") ≠ "" ∧
      ¬ embeds (answerOf (ask envNoKey cexBody))
          (pySlice (pyStrip (cexBody.query.getD "")) 500)) ∧
    (pyStrip (cexBody2.query.getD "") ≠ "" ∧
      ¬ embeds (answerOf (ask envNoKey cexBody2))
          (pySlice (pyStrip (cexBody2.query.getD "")) 500) ∧
      ¬ embeds (answerOf (ask envNoKey cexBody2))
          (pySlice (pyStrip (cexBody2.query.getD "")) 200)) := by
  refine ⟨⟨rfl, by decide, fun h => ?_⟩, by decide, fun h => ?_, fun h => ?_⟩
  · exact absurd (embeds_imp_embedsB _ _ h) (by decide)
  · exact absurd (embeds_imp_embedsB _ _ h) (by decide)
  · exact absurd (embeds_imp_embedsB _ _ h) (by decide)
